import Mathlib

/-!
Verification development for the AI-Data-Extraction-Dashboard repository
(`src/main.py`).  The Python program is shallowly embedded: JSON values become
an inductive `JValue`, Python exceptions become an explicit `Except PyErr`
monad, and the two outbound HTTP calls become oracle functions supplied as
arguments (a call either raises a `requests` exception, carrying `str(e)`, or
yields a parsed JSON body).
-/

namespace Dash

/-- Kinds of Python exceptions that the embedded code can raise. -/
inductive PyErr where
  | keyError
  | indexError
  | valueError
  | typeError
  | attributeError
deriving DecidableEq, Repr

/-- Parsed JSON values, as handed back by `response.json()`. -/
inductive JValue where
  | null
  | bool (b : Bool)
  | num (n : Int)
  | str (s : String)
  | arr (xs : List JValue)
  | obj (fields : List (String × JValue))

/-- The double-quote character (code point 34). -/
def dquote : Char := Char.ofNat 34

/-- The single-quote character (code point 39). -/
def squote : Char := Char.ofNat 39

/-- The opening-brace character (code point 123). -/
def lbrace : Char := Char.ofNat 123

/-- The closing-brace character (code point 125). -/
def rbrace : Char := Char.ofNat 125

/-- Python `d.get(k, default)`: a key lookup with a default on a dict; on any
non-dict value the attribute access `.get` raises `AttributeError`. -/
def jGetD : JValue → String → JValue → Except PyErr JValue
  | .obj fs, k, d => .ok ((fs.lookup k).getD d)
  | _, _, _ => .error .attributeError

/-- Python `v[0]`: first element of a list (IndexError when empty), first
character of a string, `KeyError` on a dict with string keys, `TypeError`
otherwise. -/
def jIndex0 : JValue → Except PyErr JValue
  | .arr [] => .error .indexError
  | .arr (x :: _) => .ok x
  | .str s =>
      match s.data with
      | [] => .error .indexError
      | c :: _ => .ok (.str (String.singleton c))
  | .obj _ => .error .keyError
  | _ => .error .typeError

/-- Whether `needle` occurs as a contiguous run at the head of `hay`. -/
def listStarts : List Char → List Char → Bool
  | [], _ => true
  | _ :: _, [] => false
  | a :: as, b :: bs => a = b && listStarts as bs

/-- Whether `needle` occurs as a contiguous run anywhere in `hay`. -/
def listSubstr (needle : List Char) : List Char → Bool
  | [] => needle.isEmpty
  | c :: r => listStarts needle (c :: r) || listSubstr needle r

/-- Python `k in v` for a string `k`: key membership on a dict, element
membership on a list, substring test on a string, `TypeError` otherwise. -/
def jContains (v : JValue) (k : String) : Except PyErr Bool :=
  match v with
  | .obj fs => .ok (fs.lookup k).isSome
  | .arr xs => .ok (xs.any (fun x => match x with | .str s => s == k | _ => false))
  | .str s => .ok (listSubstr k.data s.data)
  | _ => .error .typeError

/-- Python `v[k]` for a string key `k`: dict lookup raising `KeyError` when the
key is absent, `TypeError` on non-dict values. -/
def jSubscript (v : JValue) (k : String) : Except PyErr JValue :=
  match v with
  | .obj fs =>
      match fs.lookup k with
      | some x => .ok x
      | none => .error .keyError
  | _ => .error .typeError

/-- Observable outcome of one `requests` HTTP call followed by
`raise_for_status()` and `.json()`: either some `requests` exception was
raised (carrying its `str(e)` text, covering transport failures, HTTP-status
failures and body-decoding failures), or a parsed JSON body was produced. -/
inductive HttpOutcome where
  | exn (msg : String)
  | ok (body : JValue)

/-- `WebSearcher.search` (src/main.py lines 84-94): the GET request,
`raise_for_status`, the rate-limit sleep and `response.json()` all sit inside
a `try` whose `except Exception as e` returns the dict `{"error": str(e)}`;
on full success the parsed body is returned as is.  The blocking
`time.sleep(1)` has no observable effect on the returned value. -/
def WebSearcher.search : HttpOutcome → JValue
  | .exn msg => .obj [("error", .str msg)]
  | .ok body => body

/-- The user-message text built by `GroqProcessor.process_results`
(src/main.py line 122).  The `context` parameter of the surrounding function
does not occur in the f-string, mirroring the source. -/
def groqRequestContent (query context : String) : String :=
  "Identify the Country in which the Name called " ++ query ++ " is Located"

/-- The JSON payload `data` posted by `GroqProcessor.process_results`
(src/main.py lines 120-123). -/
def groqRequestData (query context : String) : JValue :=
  .obj [("model", .str "llama3-8b-8192"),
        ("messages", .arr [.obj [("role", .str "user"),
                                 ("content", .str (groqRequestContent query context))]])]

/-- `GroqProcessor.process_results` (src/main.py lines 116-129).  The POST of
`groqRequestData` is abstracted by the transport oracle `post`.  A raised
`requests.exceptions.RequestException` is caught and formatted; on a received
body the chain `response.json().get("choices", [{}])[0].get("message",
{}).get("content", "No response")` runs, whose own exceptions (for instance
`IndexError` on an empty `choices` list) are not caught by the `except`
clause and escape. -/
def GroqProcessor.process_results (query context : String)
    (post : JValue → HttpOutcome) : Except PyErr JValue :=
  match post (groqRequestData query context) with
  | .exn m => .ok (.str ("Groq processing error: " ++ m))
  | .ok body => do
      let choices ← jGetD body "choices" (.arr [.obj []])
      let first ← jIndex0 choices
      let msg ← jGetD first "message" (.obj [])
      jGetD msg "content" (.str "No response")

/-- Bodies on which the Groq extraction chain runs without raising: a JSON
object whose `choices` field, when present, is a nonempty array whose first
element is an object whose `message` field, when present, is an object. -/
def wfGroqBody (body : JValue) : Bool :=
  match body with
  | .obj fs =>
      match fs.lookup "choices" with
      | none => true
      | some (.arr (c :: _)) =>
          (match c with
           | .obj cf =>
               (match cf.lookup "message" with
                | none => true
                | some (.obj _) => true
                | some _ => false)
           | _ => false)
      | some _ => false
  | _ => false

/-- The value the Groq extraction chain yields on a well-formed body: the
first choice's message content, with the literal default `"No response"`
wherever the `choices`/`message`/`content` structure is absent. -/
def groqSuccessValue (body : JValue) : JValue :=
  match body with
  | .obj fs =>
      match fs.lookup "choices" with
      | none => .str "No response"
      | some (.arr (c :: _)) =>
          (match c with
           | .obj cf =>
               (match cf.lookup "message" with
                | none => .str "No response"
                | some (.obj mf) => (mf.lookup "content").getD (.str "No response")
                | some _ => .null)
           | _ => .null)
      | some _ => .null
  | _ => .null

/-- Well-formedness of a whole call outcome: a raised request exception is
always handled; a received body must be `wfGroqBody`. -/
def wfOutcome : HttpOutcome → Bool
  | .exn _ => true
  | .ok b => wfGroqBody b

/-- The string-or-content result `process_results` yields on a well-formed
outcome. -/
def groqOutValue : HttpOutcome → JValue
  | .exn m => .str ("Groq processing error: " ++ m)
  | .ok b => groqSuccessValue b

/-- Split a character list at the first occurrence of `sep`: the part before
it, and (when `sep` occurs) the part after it. -/
def splitFirst (cs : List Char) (sep : Char) : List Char × Option (List Char) :=
  match cs.dropWhile (fun c => c ≠ sep) with
  | [] => (cs.takeWhile (fun c => c ≠ sep), none)
  | _ :: r => (cs.takeWhile (fun c => c ≠ sep), some r)

/-- Decimal value of a digit run. -/
def decimalVal (ds : List Char) : Nat :=
  ds.foldl (fun n c => n * 10 + (c.toNat - 48)) 0

/-- Python `repr` of a string, as used by the `!r` conversion: the value in
quotes (double quotes when the text holds a single quote but no double
quote), with backslash, quote, newline, carriage-return and tab escaped. -/
def pyRepr (s : String) : String :=
  let q := if s.data.contains squote && !(s.data.contains dquote) then dquote else squote
  let esc := s.data.flatMap (fun c =>
    if c = '\\' then ['\\', '\\']
    else if c = q then ['\\', q]
    else if c = '\n' then ['\\', 'n']
    else if c = '\r' then ['\\', 'r']
    else if c = '\t' then ['\\', 't']
    else [c])
  ⟨q :: (esc ++ [q])⟩

/-- Whether a character is one of the string alignment flags. -/
def alignFlag (c : Char) : Bool := c = '<' || c = '>' || c = '^'

/-- Python's format-spec mini-language applied to a string value:
`[[fill]align][0][width][.precision][s]`.  Sign, grouping, `=`-alignment and
numeric presentation types are invalid for strings and raise `ValueError`. -/
def applyStrSpec (spec : List Char) (v : String) : Except PyErr String := do
  let fa : Char × Option Char × List Char :=
    match spec with
    | a :: b :: r =>
        if alignFlag b then (a, some b, r)
        else if alignFlag a then (' ', some a, b :: r)
        else (' ', none, spec)
    | a :: r => if alignFlag a then (' ', some a, r) else (' ', none, spec)
    | [] => (' ', none, [])
  let fa :=
    match fa.2.1, fa.2.2 with
    | none, c :: r => if c = '0' then ('0', some '<', r) else fa
    | _, _ => fa
  let fill := fa.1
  let align := fa.2.1
  let rest := fa.2.2
  let w := decimalVal (rest.takeWhile Char.isDigit)
  let rest2 := rest.dropWhile Char.isDigit
  let pr : Option Nat × List Char ←
    match rest2 with
    | c :: r =>
        if c = '.' then
          (let ds := r.takeWhile Char.isDigit
           if ds.isEmpty then Except.error PyErr.valueError
           else Except.ok (some (decimalVal ds), r.dropWhile Char.isDigit))
        else Except.ok (none, rest2)
    | [] => Except.ok (none, [])
  match pr.2 with
  | [] => pure ()
  | c :: r =>
      if c = 's' && r.isEmpty then pure ()
      else Except.error PyErr.valueError
  let chars := match pr.1 with | some p => v.data.take p | none => v.data
  let n := chars.length
  let padded :=
    if w ≤ n then chars
    else
      match align.getD '<' with
      | '>' => List.replicate (w - n) fill ++ chars
      | '^' => List.replicate ((w - n) / 2) fill ++ chars ++
               List.replicate (w - n - (w - n) / 2) fill
      | _ => chars ++ List.replicate (w - n) fill
  Except.ok ⟨padded⟩

/-- One replacement field of `str.format`, called with the single keyword
argument `entity`: the field text is split into name, `!conversion` and
`:format_spec`; looking the name up raises `IndexError` for auto-numbered or
positional fields (no positional arguments are supplied) and `KeyError` for
any keyword other than `entity`; accessor suffixes (`.attr`, `[idx]`) on
`entity` are modelled as `AttributeError`.  Then the conversion and the
format spec are applied. -/
def formatField (field : List Char) (entity : String) : Except PyErr String := do
  let nc := splitFirst field ':'
  let nv := splitFirst nc.1 '!'
  let name := nv.1
  let value ←
    if name.isEmpty then Except.error PyErr.indexError
    else if name.all Char.isDigit then Except.error PyErr.indexError
    else if (name.headD ' ').isDigit then Except.error PyErr.valueError
    else if name.any (fun c => c = '.' || c = '[') then
      (if (splitFirst (splitFirst name '.').1 '[').1 = "entity".data then
        Except.error PyErr.attributeError
       else Except.error PyErr.keyError)
    else if name = "entity".data then Except.ok entity
    else Except.error PyErr.keyError
  let conv ←
    match nv.2 with
    | none => Except.ok value
    | some cv =>
        if cv = ['s'] then Except.ok value
        else if cv = ['r'] || cv = ['a'] then Except.ok (pyRepr value)
        else Except.error PyErr.valueError
  match nc.2 with
  | none => Except.ok conv
  | some spec => applyStrSpec spec conv

/-- Split off a replacement field: the text up to the first closing brace and
the remainder after it, or `none` when no closing brace exists. -/
def splitAtRBrace (cs : List Char) : Option (List Char × List Char) :=
  match cs.dropWhile (fun c => c ≠ rbrace) with
  | [] => none
  | _ :: r => some (cs.takeWhile (fun c => c ≠ rbrace), r)

/-- Scanner of `str.format` over the template text: literal characters pass
through, `\x7b\x7b` and `\x7d\x7d` unescape to single braces, a lone closing
brace raises `ValueError`, and an opening brace starts a replacement field
handled by `formatField`.  The fuel argument bounds the recursion; every
recursive call consumes at least one character, so `length + 1` fuel always
suffices and the fuel-exhaustion branch is unreachable from `pyFormat`. -/
def scanFormatAux (entity : String) : Nat → List Char → Except PyErr (List Char)
  | 0, _ => Except.error PyErr.valueError
  | _ + 1, [] => Except.ok []
  | fuel + 1, c :: rest =>
    if c = lbrace then
      match rest with
      | [] => Except.error PyErr.valueError
      | c2 :: rest2 =>
          if c2 = lbrace then
            (fun t => lbrace :: t) <$> scanFormatAux entity fuel rest2
          else
            match splitAtRBrace (c2 :: rest2) with
            | none => Except.error PyErr.valueError
            | some (field, rest3) => do
                let repl ← formatField field entity
                (fun t => repl.data ++ t) <$> scanFormatAux entity fuel rest3
    else if c = rbrace then
      match rest with
      | [] => Except.error PyErr.valueError
      | c2 :: rest2 =>
          if c2 = rbrace then
            (fun t => rbrace :: t) <$> scanFormatAux entity fuel rest2
          else Except.error PyErr.valueError
    else (fun t => c :: t) <$> scanFormatAux entity fuel rest

/-- `query_template.format(entity=entity)` (src/main.py line 180). -/
def pyFormat (template entity : String) : Except PyErr String :=
  (fun cs => (⟨cs⟩ : String)) <$> scanFormatAux entity (template.data.length + 1) template.data

/-- One row of the loaded table: an ordered association of column names to
cell values, the cells taken in their textual form. -/
abbrev Row := List (String × String)

/-- The loaded table: an ordered sequence of rows. -/
abbrev Table := List Row

/-- Python `row[col]`: the cell under a column name, `KeyError` when the
column is absent. -/
def rowGet (r : Row) (c : String) : Except PyErr String :=
  match r.lookup c with
  | some v => .ok v
  | none => .error .keyError

/-- Python `xs[0]` on a list of column names. -/
def listIndex0 : List String → Except PyErr String
  | [] => .error .indexError
  | c :: _ => .ok c

/-- Python iteration over a JSON value, as in the generator
`for result in ...`: the elements of a list, the keys of a dict, the
characters of a string; `TypeError` otherwise. -/
def pyIter : JValue → Except PyErr (List JValue)
  | .arr xs => .ok xs
  | .obj fs => .ok (fs.map (fun p => .str p.1))
  | .str s => .ok (s.data.map (fun c => .str (String.singleton c)))
  | _ => .error .typeError

/-- `result.get("snippet", "")` followed by the string requirement that
`" ".join` imposes on every element. -/
def getSnippet (r : JValue) : Except PyErr String := do
  let v ← jGetD r "snippet" (.str "")
  match v with
  | .str s => Except.ok s
  | _ => Except.error PyErr.typeError

/-- The context string of src/main.py line 183:
`" ".join(result.get("snippet", "") for result in
search_results.get("organic_results", []))`. -/
def buildContext (search_results : JValue) : Except PyErr String := do
  let org ← jGetD search_results "organic_results" (.arr [])
  let items ← pyIter org
  let snips ← items.mapM getSnippet
  Except.ok (String.intercalate " " snips)

/-- One output row `{"Entity": entity, "Response": response}` appended to
`results` by the extraction loop. -/
structure ExtractionRecord where
  entity : String
  response : JValue

/-- The body of the per-row loop of `Dashboard.show_data_processing_options`
(src/main.py lines 178-187): select the entity from the first chosen column,
instantiate the query template, run the web search, and either record the
value under the body's `"error"` key or build the context, call the Groq
client and record its reply.  `searchNet` and `post` are the transport
oracles of the two HTTP calls. -/
def extractRow (cols : List String) (template : String)
    (searchNet : String → HttpOutcome) (post : JValue → HttpOutcome)
    (row : Row) : Except PyErr ExtractionRecord := do
  let c0 ← listIndex0 cols
  let entity ← rowGet row c0
  let query ← pyFormat template entity
  let sres := WebSearcher.search (searchNet query)
  let hasErr ← jContains sres "error"
  if hasErr then
    let v ← jSubscript sres "error"
    Except.ok ⟨entity, v⟩
  else
    let context ← buildContext sres
    let response ← GroqProcessor.process_results entity context post
    Except.ok ⟨entity, response⟩

/-- The whole extraction loop (src/main.py lines 177-189): the rows are
visited in order and the records accumulated; an uncaught exception in any
row aborts the loop before any table is materialised. -/
def extractLoop (rows : List Row) (cols : List String) (template : String)
    (searchNet : String → HttpOutcome) (post : JValue → HttpOutcome) :
    Except PyErr (List ExtractionRecord) :=
  rows.mapM (extractRow cols template searchNet post)

/-- Python truthiness of an `os.getenv` result: `None` and the empty string
are falsy. -/
def pyTruthy : Option String → Bool
  | none => false
  | some s => !(s == "")

/-- The environment the program reads once at start: the two API keys, the
credential path, and the filesystem's answer to `os.path.exists`. -/
structure Config where
  groqApiKey : Option String
  serpapiKey : Option String
  googleCredsPath : Option String
  pathExists : String → Bool

/-- `validate_api_keys` (src/main.py lines 19-31): the list of missing
configuration items, in the order the source checks them. -/
def validate_api_keys (cfg : Config) : List String :=
  (if !pyTruthy cfg.serpapiKey then ["SERPAPI_KEY"] else []) ++
  (if !pyTruthy cfg.groqApiKey then ["GROQ_API_KEY"] else []) ++
  (if !pyTruthy cfg.googleCredsPath
      || !cfg.pathExists (cfg.googleCredsPath.getD "") then
    ["GOOGLE_CREDS_PATH"] else [])

/-- The two clients `Dashboard.__init__` constructs after validation
succeeds, with the base URLs fixed in their constructors. -/
structure Clients where
  searcherApiKey : String
  searcherBaseUrl : String
  groqApiKey : String
  groqApiBase : String
deriving DecidableEq

/-- `Dashboard.__init__` (src/main.py lines 135-145): `validate_api_keys`
runs first and `st.stop()` halts the construction when any item is missing;
only otherwise are the `WebSearcher` and `GroqProcessor` clients built. -/
def dashboardInit (cfg : Config) : Except (List String) Clients :=
  let missing := validate_api_keys cfg
  if missing.isEmpty then
    .ok ⟨cfg.serpapiKey.getD "", "https://serpapi.com/search",
         cfg.groqApiKey.getD "", "https://api.groq.com/openai/v1/chat/completions"⟩
  else .error missing

/-- `DataManager.load_csv` (src/main.py lines 38-46): the `pd.read_csv`
outcome is abstracted by `parse`; a failure is caught, an error message is
surfaced and `None` is returned, a success returns the frame whole.  The
second component is the message shown to the user. -/
def DataManager.load_csv (parse : Except String Table) : Option Table × String :=
  match parse with
  | .ok df => (some df, "CSV file loaded successfully,Thank You for providing Data.")
  | .error e => (none, "Error loading CSV: " ++ e)

/-- `DataManager.load_gsheet` (src/main.py lines 49-61): credential loading,
authorisation, opening the sheet and materialising records all sit inside
one `try`, abstracted by `fetch`. -/
def DataManager.load_gsheet (fetch : Except String Table) : Option Table × String :=
  match fetch with
  | .ok df => (some df, "Google Sheet loaded successfully,Thank You for providing Data.")
  | .error e => (none, "Error loading Google Sheet: " ++ e)

/-- Whether minimal quoting makes `to_csv` wrap a field in quotes: the field
holds the delimiter, the quote character or a line-break character. -/
def needsQuote (s : String) : Bool :=
  s.data.any (fun c => c = ',' || c = dquote || c = '\n' || c = '\r')

/-- Double every quote character, the escaping applied inside a quoted CSV
field. -/
def escQuotes : List Char → List Char
  | [] => []
  | c :: r => if c = dquote then dquote :: dquote :: escQuotes r else c :: escQuotes r

/-- One serialised CSV field under minimal quoting. -/
def fieldChars (s : String) : List Char :=
  if needsQuote s then dquote :: (escQuotes s.data ++ [dquote]) else s.data

/-- The serialised data lines of the export: per record one line
`entity,response` terminated by a newline. -/
def csvBody : List (String × String) → List Char
  | [] => []
  | p :: rs => fieldChars p.1 ++ ',' :: (fieldChars p.2 ++ '\n' :: csvBody rs)

/-- `results_df.to_csv(index=False)` (src/main.py line 193) on the
two-column output frame: the `Entity,Response` header line followed by one
minimally quoted line per record, each line newline-terminated. -/
def to_csv (recs : List (String × String)) : String :=
  ⟨"Entity,Response".data ++ '\n' :: csvBody recs⟩

/-- Parse the inside of a quoted CSV field, the opening quote already
consumed: a doubled quote contributes one quote character, a single quote
closes the field. -/
def parseQuoted : List Char → Option (List Char × List Char)
  | [] => none
  | c :: r =>
    if c = dquote then
      match r with
      | c2 :: r2 =>
          if c2 = dquote then (fun p => (dquote :: p.1, p.2)) <$> parseQuoted r2
          else some ([], r)
      | [] => some ([], [])
    else (fun p => (c :: p.1, p.2)) <$> parseQuoted r

/-- Parse an unquoted CSV field: everything up to the next delimiter or line
break. -/
def parseUnquoted : List Char → List Char × List Char
  | [] => ([], [])
  | c :: r =>
    if c = ',' || c = '\n' then ([], c :: r)
    else
      let p := parseUnquoted r
      (c :: p.1, p.2)

/-- Parse one CSV field, quoted or not. -/
def parseField (cs : List Char) : Option (List Char × List Char) :=
  match cs with
  | [] => some ([], [])
  | c :: r => if c = dquote then parseQuoted r else some (parseUnquoted cs)

/-- Parse one two-field CSV line and the remainder after its terminator; the
final line may omit the trailing newline. -/
def parseLine (cs : List Char) : Option ((String × String) × List Char) :=
  match parseField cs with
  | none => none
  | some (f1, r1) =>
    match r1 with
    | c :: r2 =>
      if c = ',' then
        match parseField r2 with
        | none => none
        | some (f2, r3) =>
          match r3 with
          | c2 :: r4 => if c2 = '\n' then some ((⟨f1⟩, ⟨f2⟩), r4) else none
          | [] => some ((⟨f1⟩, ⟨f2⟩), [])
      else none
    | [] => none

/-- Parse a run of CSV lines; each successful `parseLine` consumes at least
the field delimiter, so fuel `length + 1` always suffices. -/
def parseRowsAux : Nat → List Char → Option (List (String × String))
  | 0, cs => if cs.isEmpty then some [] else none
  | fuel + 1, cs =>
    if cs.isEmpty then some []
    else
      match parseLine cs with
      | none => none
      | some (p, rest) =>
        match parseRowsAux fuel rest with
        | none => none
        | some ps => some (p :: ps)

/-- Re-parse exported delimited text into its sequence of two-field rows,
the header row included. -/
def read_csv (s : String) : Option (List (String × String)) :=
  parseRowsAux (s.data.length + 1) s.data

/-- Demo input rows of the worked scenario: two rows with the same entity
value, so that deduplication would be observable. -/
def demoRows : List Row :=
  [[("Name", "Paris"), ("Note", "x")], [("Name", "Paris"), ("Note", "y")]]

/-- Demo query template with the `entity` placeholder. -/
def demoTemplate : String := "Where is \x7bentity\x7d?"

/-- Demo search transport: every query succeeds with one organic result. -/
def demoSearch (q : String) : HttpOutcome :=
  .ok (.obj [("organic_results",
              .arr [.obj [("snippet", .str ("snippet about " ++ q))]])])

/-- Demo Groq transport: every request succeeds with one completion. -/
def demoPost (req : JValue) : HttpOutcome :=
  .ok (.obj [("choices",
              .arr [.obj [("message", .obj [("content", .str "France")])]])])

/-- Demo Groq transport that always raises a request exception. -/
def demoPostFail (req : JValue) : HttpOutcome := .exn "boom"

/-- The records the demo run produces. -/
def demoRecs : List ExtractionRecord :=
  [⟨"Paris", .str "France"⟩, ⟨"Paris", .str "France"⟩]

/-- Demo search transport that raises on every query. -/
def demoSearchErr (q : String) : HttpOutcome := .exn "connection refused"

/-- Demo search transport that succeeds at the HTTP level with a body that
itself carries a top-level error key. -/
def demoSearchBodyErr (q : String) : HttpOutcome :=
  .ok (.obj [("error", .str "rate limited"), ("search_metadata", .null)])

/-- Demo environment in which every configuration item is missing: no keys
set, and the configured credential path does not exist on disk. -/
def demoCfgMissing : Config :=
  ⟨none, none, some "/creds.json", fun _ => false⟩

theorem ok_bind {α β ε : Type} (a : α) (f : α → Except ε β) :
    (Except.ok a >>= f) = f a := rfl

theorem error_bind {α β ε : Type} (e : ε) (f : α → Except ε β) :
    ((Except.error e : Except ε α) >>= f) = Except.error e := rfl

theorem ok_map {α β ε : Type} (a : α) (f : α → β) :
    (f <$> (Except.ok a : Except ε α)) = Except.ok (f a) := rfl

theorem error_map {α β ε : Type} (e : ε) (f : α → β) :
    (f <$> (Except.error e : Except ε α)) = (Except.error e : Except ε β) := rfl

/-- Successful `mapM` over `Except` produces exactly one output per input,
in input order. -/
theorem mapM_ok_spec {α β ε : Type} (f : α → Except ε β) :
    ∀ (xs : List α) (ys : List β), xs.mapM f = Except.ok ys →
      ys.length = xs.length ∧
      ∀ i (hi : i < xs.length) (hi' : i < ys.length),
        f (xs.get ⟨i, hi⟩) = Except.ok (ys.get ⟨i, hi'⟩) := by
  intro xs
  induction xs with
  | nil =>
    intro ys h
    rw [List.mapM_nil] at h
    cases h
    exact ⟨rfl, fun i hi => by simp at hi⟩
  | cons a as ih =>
    intro ys h
    rw [List.mapM_cons] at h
    cases ha : f a with
    | error e => rw [ha, error_bind] at h; cases h
    | ok b =>
      rw [ha, ok_bind] at h
      cases has : as.mapM f with
      | error e => rw [has, error_bind] at h; cases h
      | ok bs =>
        rw [has, ok_bind] at h
        cases h
        obtain ⟨hlen, hidx⟩ := ih bs has
        refine ⟨by simp [hlen], ?_⟩
        intro i hi hi'
        cases i with
        | zero => simpa using ha
        | succ n =>
          rw [List.get_cons_succ, List.get_cons_succ]
          exact hidx n (by simpa using hi) (by simpa using hi')

/-- A successful row extraction names its entity from the first selected
column: the record's entity field is the cell of that column. -/
theorem extractRow_ok_entity (cols : List String) (t : String)
    (s : String → HttpOutcome) (g : JValue → HttpOutcome) (row : Row)
    (rec : ExtractionRecord)
    (h : extractRow cols t s g row = Except.ok rec) :
    ∃ c0 e, listIndex0 cols = Except.ok c0 ∧ rowGet row c0 = Except.ok e ∧
      rec.entity = e := by
  unfold extractRow at h
  cases h0 : listIndex0 cols with
  | error er => rw [h0, error_bind] at h; cases h
  | ok c0 =>
    rw [h0, ok_bind] at h
    cases h1 : rowGet row c0 with
    | error er => rw [h1, error_bind] at h; cases h
    | ok e =>
      rw [h1, ok_bind] at h
      refine ⟨c0, e, rfl, h1, ?_⟩
      cases h2 : pyFormat t e with
      | error er => rw [h2, error_bind] at h; cases h
      | ok q =>
        rw [h2, ok_bind] at h
        dsimp only at h
        cases h3 : jContains (WebSearcher.search (s q)) "error" with
        | error er => rw [h3, error_bind] at h; cases h
        | ok hasErr =>
          rw [h3, ok_bind] at h
          cases hasErr with
          | true =>
            simp only [if_pos] at h
            cases h4 : jSubscript (WebSearcher.search (s q)) "error" with
            | error er => rw [h4, error_bind] at h; cases h
            | ok v => rw [h4, ok_bind] at h; cases h; rfl
          | false =>
            simp only [Bool.false_eq_true, if_neg, not_false_eq_true] at h
            cases h5 : buildContext (WebSearcher.search (s q)) with
            | error er => rw [h5, error_bind] at h; cases h
            | ok ctx =>
              rw [h5, ok_bind] at h
              cases h6 : GroqProcessor.process_results e ctx g with
              | error er => rw [h6, error_bind] at h; cases h
              | ok resp => rw [h6, ok_bind] at h; cases h; rfl

/-- Claim C1: the claim says the chat-completion request body includes the
concatenated search snippets (the context string), so that the context passed
to `process_results` influences the request.  Evaluating the request payload
built by the code (src/main.py lines 120-123) at the entity `"Paris"` shows
the payload is identical for two different context strings: the message text
names only the entity and the context is dropped. -/
theorem C1_context_not_in_request :
    groqRequestData "Paris" "snippet one snippet two" = groqRequestData "Paris" "" ∧
    ("snippet one snippet two" : String) ≠ "" :=
  ⟨rfl, by decide⟩

/-- Claim C2: whenever the extraction loop yields an output table, that table
holds exactly one `ExtractionRecord` per input row, in input order — the
`i`-th record is the record extracted from the `i`-th row, its entity the
cell of the first selected column of that row — with no deduplication of
repeated entities. -/
theorem C2_output_table_shape (rows : List Row) (cols : List String)
    (t : String) (s : String → HttpOutcome) (g : JValue → HttpOutcome)
    (recs : List ExtractionRecord)
    (h : extractLoop rows cols t s g = Except.ok recs) :
    recs.length = rows.length ∧
    ∀ i (hi : i < rows.length) (hi' : i < recs.length),
      extractRow cols t s g (rows.get ⟨i, hi⟩) = Except.ok (recs.get ⟨i, hi'⟩) ∧
      ∃ c0 e, listIndex0 cols = Except.ok c0 ∧
        rowGet (rows.get ⟨i, hi⟩) c0 = Except.ok e ∧
        (recs.get ⟨i, hi'⟩).entity = e := by
  obtain ⟨hlen, hidx⟩ := mapM_ok_spec (extractRow cols t s g) rows recs h
  refine ⟨hlen, fun i hi hi' => ?_⟩
  have hr := hidx i hi hi'
  exact ⟨hr, extractRow_ok_entity cols t s g _ _ hr⟩

/-- Claim C2 witness: a concrete two-row run with a repeated entity value
completes and yields two records. -/
theorem C2_output_table_shape_witness :
    extractLoop demoRows ["Name"] demoTemplate demoSearch demoPost = Except.ok demoRecs ∧
    demoRecs.length = demoRows.length :=
  ⟨rfl, (C2_output_table_shape demoRows ["Name"] demoTemplate demoSearch demoPost
          demoRecs rfl).1⟩

/-- Claim C7: a load attempt that fails for any reason is caught, the failure
is surfaced in the user message, and the loader returns the absence value
`none`; a table is only ever returned whole, from a successful underlying
load. -/
theorem C7_loader_failure (e : String) (t : Table) :
    DataManager.load_csv (Except.error e) = (none, "Error loading CSV: " ++ e) ∧
    DataManager.load_gsheet (Except.error e) = (none, "Error loading Google Sheet: " ++ e) ∧
    (DataManager.load_csv (Except.ok t)).1 = some t ∧
    (DataManager.load_gsheet (Except.ok t)).1 = some t :=
  ⟨rfl, rfl, rfl, rfl⟩

/-- Claim C7 witness: the loader outcome at one concrete failure and one
concrete success. -/
theorem C7_loader_failure_witness :
    DataManager.load_csv (Except.error "bad file") =
      (none, "Error loading CSV: " ++ "bad file") ∧
    (DataManager.load_csv (Except.ok demoRows)).1 = some demoRows :=
  ⟨(C7_loader_failure "bad file" demoRows).1,
   (C7_loader_failure "bad file" demoRows).2.2.1⟩

/-- Claim C3: when the outbound search request for a row's query raises, the
search operation itself returns the error-tagged dict `{"error": str(e)}`
rather than raising, the row's record carries that error string verbatim,
and the result is the same for every Groq transport — the summarization
client's outcome is never consulted for that row. -/
theorem C3_search_failure (cols : List String) (t : String) (row : Row)
    (sNet : String → HttpOutcome) (c0 e q m : String)
    (hc : listIndex0 cols = Except.ok c0)
    (he : rowGet row c0 = Except.ok e)
    (hq : pyFormat t e = Except.ok q)
    (hs : sNet q = HttpOutcome.exn m) :
    WebSearcher.search (sNet q) = JValue.obj [("error", JValue.str m)] ∧
    ∀ post, extractRow cols t sNet post row = Except.ok ⟨e, JValue.str m⟩ := by
  constructor
  · rw [hs]; rfl
  · intro post
    unfold extractRow
    rw [hc, ok_bind, he, ok_bind, hq, ok_bind, hs]
    rfl

/-- Claim C3 witness: a concrete row whose search transport raises; the
record equals the error text for a Groq transport that would answer. -/
theorem C3_search_failure_witness :
    listIndex0 ["Name"] = Except.ok "Name" ∧
    rowGet [("Name", "Paris"), ("Note", "x")] "Name" = Except.ok "Paris" ∧
    pyFormat demoTemplate "Paris" = Except.ok "Where is Paris?" ∧
    demoSearchErr "Where is Paris?" = HttpOutcome.exn "connection refused" ∧
    extractRow ["Name"] demoTemplate demoSearchErr demoPost
        [("Name", "Paris"), ("Note", "x")] =
      Except.ok ⟨"Paris", JValue.str "connection refused"⟩ :=
  ⟨rfl, rfl, rfl, rfl,
   (C3_search_failure ["Name"] demoTemplate [("Name", "Paris"), ("Note", "x")]
      demoSearchErr "Name" "Paris" "Where is Paris?" "connection refused"
      rfl rfl rfl rfl).2 demoPost⟩

/-- Claim C10: a search that succeeds at the HTTP level but whose JSON body
is an object holding a top-level `"error"` key takes the same per-row branch
as a failed search: the record's response is the value stored under that
key, for every Groq transport alike — the summarization client's outcome is
never consulted. -/
theorem C10_body_error_key (cols : List String) (t : String) (row : Row)
    (sNet : String → HttpOutcome) (c0 e q : String)
    (fs : List (String × JValue)) (v : JValue)
    (hc : listIndex0 cols = Except.ok c0)
    (he : rowGet row c0 = Except.ok e)
    (hq : pyFormat t e = Except.ok q)
    (hs : sNet q = HttpOutcome.ok (JValue.obj fs))
    (hv : fs.lookup "error" = some v) :
    ∀ post, extractRow cols t sNet post row = Except.ok ⟨e, v⟩ := by
  intro post
  unfold extractRow
  rw [hc, ok_bind, he, ok_bind, hq, ok_bind, hs]
  show (do
    let hasErr ← jContains (WebSearcher.search (HttpOutcome.ok (JValue.obj fs))) "error"
    if hasErr then
      do let v ← jSubscript (WebSearcher.search (HttpOutcome.ok (JValue.obj fs))) "error"
         Except.ok (⟨e, v⟩ : ExtractionRecord)
    else
      do let context ← buildContext (WebSearcher.search (HttpOutcome.ok (JValue.obj fs)))
         let response ← GroqProcessor.process_results e context post
         Except.ok (⟨e, response⟩ : ExtractionRecord)) = Except.ok ⟨e, v⟩
  simp only [WebSearcher.search, jContains, hv, Option.isSome_some, ok_bind, if_pos,
    jSubscript]

/-- Claim C10 witness: a concrete row whose search returns HTTP success with
an error-carrying body. -/
theorem C10_body_error_key_witness :
    demoSearchBodyErr "Where is Paris?" =
      HttpOutcome.ok (JValue.obj [("error", JValue.str "rate limited"),
                                  ("search_metadata", JValue.null)]) ∧
    extractRow ["Name"] demoTemplate demoSearchBodyErr demoPost
        [("Name", "Paris"), ("Note", "x")] =
      Except.ok ⟨"Paris", JValue.str "rate limited"⟩ :=
  ⟨rfl,
   C10_body_error_key ["Name"] demoTemplate [("Name", "Paris"), ("Note", "x")]
     demoSearchBodyErr "Name" "Paris" "Where is Paris?"
     [("error", JValue.str "rate limited"), ("search_metadata", JValue.null)]
     (JValue.str "rate limited") rfl rfl rfl rfl rfl demoPost⟩

/-- Claim C6: if any configuration item is absent — falsy search key, falsy
text-generation key, or a credential path that is falsy or does not exist —
startup halts in `validate_api_keys` with the list of exactly the missing
items, and the halt occurs before the search and summarization clients are
constructed (the `Clients` value is never produced). -/
theorem C6_missing_config (cfg : Config)
    (h : pyTruthy cfg.serpapiKey = false ∨ pyTruthy cfg.groqApiKey = false ∨
         (!pyTruthy cfg.googleCredsPath
            || !cfg.pathExists (cfg.googleCredsPath.getD "")) = true) :
    dashboardInit cfg = Except.error (validate_api_keys cfg) ∧
    validate_api_keys cfg ≠ [] ∧
    (("SERPAPI_KEY" ∈ validate_api_keys cfg) ↔ pyTruthy cfg.serpapiKey = false) ∧
    (("GROQ_API_KEY" ∈ validate_api_keys cfg) ↔ pyTruthy cfg.groqApiKey = false) ∧
    (("GOOGLE_CREDS_PATH" ∈ validate_api_keys cfg) ↔
      (!pyTruthy cfg.googleCredsPath
         || !cfg.pathExists (cfg.googleCredsPath.getD "")) = true) := by
  cases hs : pyTruthy cfg.serpapiKey <;>
    cases hg : pyTruthy cfg.groqApiKey <;>
      cases hp : (!pyTruthy cfg.googleCredsPath
                    || !cfg.pathExists (cfg.googleCredsPath.getD "")) <;>
        simp only [hs, hg, hp] at h ⊢ <;>
          simp_all [validate_api_keys, dashboardInit]

/-- Claim C6 witness: with no keys set and a nonexistent credential file, the
dashboard halts with all three items reported and no clients built. -/
theorem C6_missing_config_witness :
    pyTruthy demoCfgMissing.serpapiKey = false ∧
    dashboardInit demoCfgMissing = Except.error (validate_api_keys demoCfgMissing) ∧
    validate_api_keys demoCfgMissing =
      ["SERPAPI_KEY", "GROQ_API_KEY", "GOOGLE_CREDS_PATH"] :=
  ⟨rfl, (C6_missing_config demoCfgMissing (Or.inl rfl)).1, rfl⟩

/-- The format scanner is the identity on brace-free text, for any
sufficient fuel. -/
theorem scanFormatAux_no_brace (e : String) :
    ∀ (fuel : Nat) (cs : List Char), cs.length < fuel →
      (∀ c ∈ cs, c ≠ lbrace ∧ c ≠ rbrace) →
      scanFormatAux e fuel cs = Except.ok cs := by
  intro fuel
  induction fuel with
  | zero => intro cs h _; exact absurd h (by omega)
  | succ f ih =>
    intro cs hlen hnb
    cases cs with
    | nil => rfl
    | cons c rest =>
      have hc := hnb c (by simp)
      have hrest : scanFormatAux e f rest = Except.ok rest := by
        refine ih rest ?_ (fun c' hc' => hnb c' (by simp [hc']))
        simp only [List.length_cons] at hlen
        omega
      simp only [scanFormatAux]
      rw [if_neg hc.1, if_neg hc.2, hrest, ok_map]

/-- Claim C5, amended: formatting is the identity for templates containing
no brace characters at all.  (The original claim — every template lacking
the `entity` placeholder is returned unchanged — fails: a template with a
different placeholder raises `KeyError`, see the counterexample.) -/
theorem C5_no_placeholder_no_braces (t e : String)
    (h : ∀ c ∈ t.data, c ≠ lbrace ∧ c ≠ rbrace) :
    pyFormat t e = Except.ok t := by
  unfold pyFormat
  rw [scanFormatAux_no_brace e (t.data.length + 1) t.data (by omega) h, ok_map]

/-- Claim C5 counterexample: the template `"\x7bcity\x7d"` does not contain
the `entity` placeholder, yet formatting it with entity `"Paris"` raises
`KeyError` instead of returning the template unchanged. -/
theorem C5_other_placeholder_raises :
    pyFormat "\x7bcity\x7d" "Paris" = Except.error PyErr.keyError := rfl

/-- Claim C5 witness: a concrete brace-free template is returned unchanged. -/
theorem C5_no_placeholder_no_braces_witness :
    (∀ c ∈ ("Where is X?" : String).data, c ≠ lbrace ∧ c ≠ rbrace) ∧
    pyFormat "Where is X?" "Paris" = Except.ok "Where is X?" :=
  ⟨by decide, C5_no_placeholder_no_braces "Where is X?" "Paris" (by decide)⟩

/-- Claim C4, amended: on request failure `process_results` returns the
formatted error string, and on a received body whose `choices` field (when
present) is a nonempty array of objects with object-typed `message` fields,
it returns without raising either the first choice's message content or the
literal default `"No response"` where the `choices`/`message`/`content`
structure is absent.  (The original claim — first completion's text or the
formatted error string, nothing else, no escaping exception — fails: a body
without any completion yields the third outcome `"No response"`, see the
counterexample, and an empty `choices` array raises an uncaught
`IndexError`.) -/
theorem C4_outcomes (q c : String) (post : JValue → HttpOutcome)
    (h : wfOutcome (post (groqRequestData q c)) = true) :
    GroqProcessor.process_results q c post =
      Except.ok (groqOutValue (post (groqRequestData q c))) := by
  unfold GroqProcessor.process_results groqOutValue
  unfold wfOutcome at h
  generalize post (groqRequestData q c) = out at h ⊢
  cases out with
  | exn m => rfl
  | ok body =>
    dsimp only at h ⊢
    unfold wfGroqBody at h
    cases body with
    | null => cases h
    | bool b => cases h
    | num n => cases h
    | str s => cases h
    | arr xs => cases h
    | obj fs =>
      dsimp only at h
      cases hch : fs.lookup "choices" with
      | none =>
        rw [hch] at h
        simp [jGetD, jIndex0, hch, groqSuccessValue, ok_bind]
      | some v =>
        rw [hch] at h
        cases v with
        | null => cases h
        | bool b => cases h
        | num n => cases h
        | str s => cases h
        | obj gs => cases h
        | arr xs =>
          cases xs with
          | nil => cases h
          | cons c0 crest =>
            cases c0 with
            | null => cases h
            | bool b => cases h
            | num n => cases h
            | str s => cases h
            | arr ys => cases h
            | obj cf =>
              dsimp only at h
              cases hm : cf.lookup "message" with
              | none =>
                rw [hm] at h
                simp [jGetD, jIndex0, hch, hm, groqSuccessValue, ok_bind]
              | some mv =>
                rw [hm] at h
                cases mv with
                | null => cases h
                | bool b => cases h
                | num n => cases h
                | str s => cases h
                | arr ys => cases h
                | obj mf =>
                  simp [jGetD, jIndex0, hch, hm, groqSuccessValue, ok_bind]

/-- Claim C4 counterexample: at the HTTP-successful body `\x7b\x7d` (an
object with no `choices` key, hence no first completion) the call returns
the default `"No response"`, which does not start with the
`"Groq processing error: "` format of the failure branch — a third outcome
beside the two the claim allows. -/
theorem C4_no_response_outcome :
    GroqProcessor.process_results "Paris" "some snippets"
        (fun _ => HttpOutcome.ok (JValue.obj [])) =
      Except.ok (JValue.str "No response") ∧
    ([] : List (String × JValue)).lookup "choices" = none ∧
    listStarts "Groq processing error: ".data "No response".data = false :=
  ⟨rfl, rfl, by decide⟩

/-- Claim C4 witness: a well-formed reply body yields its first completion's
message content. -/
theorem C4_outcomes_witness :
    wfOutcome (demoPost (groqRequestData "Paris" "ctx")) = true ∧
    GroqProcessor.process_results "Paris" "ctx" demoPost =
      Except.ok (groqOutValue (demoPost (groqRequestData "Paris" "ctx"))) ∧
    groqOutValue (demoPost (groqRequestData "Paris" "ctx")) = JValue.str "France" :=
  ⟨rfl, C4_outcomes "Paris" "ctx" demoPost rfl, rfl⟩

/-- Row extraction only consults the head of the selected-column list, so
two rows agreeing on that first column extract identically whatever the
remaining selected columns are. -/
theorem extractRow_firstcol (c0 : String) (cs cs' : List String) (t : String)
    (s : String → HttpOutcome) (g : JValue → HttpOutcome) (r r' : Row)
    (h : rowGet r c0 = rowGet r' c0) :
    extractRow (c0 :: cs) t s g r = extractRow (c0 :: cs') t s g r' := by
  unfold extractRow
  simp only [listIndex0, ok_bind]
  rw [h]

/-- Claim C9: only the first selected column feeds the loop — neither the
tail of the selected-column list nor the values of any other column affect
the extraction outcome.  Two row lists of equal length whose rows agree on
the first selected column, processed under any two tails of the selection,
produce identical results (hence identical queries and identical output
tables). -/
theorem C9_first_column_only (rows rows' : List Row) (c0 : String)
    (cs cs' : List String) (t : String) (s : String → HttpOutcome)
    (g : JValue → HttpOutcome)
    (hlen : rows.length = rows'.length)
    (hag : ∀ i (hi : i < rows.length) (hi' : i < rows'.length),
      rowGet (rows.get ⟨i, hi⟩) c0 = rowGet (rows'.get ⟨i, hi'⟩) c0) :
    extractLoop rows (c0 :: cs) t s g = extractLoop rows' (c0 :: cs') t s g := by
  induction rows generalizing rows' with
  | nil =>
    cases rows' with
    | nil => rfl
    | cons r' rs' => simp at hlen
  | cons r rs ih =>
    cases rows' with
    | nil => simp at hlen
    | cons r' rs' =>
      have h0 : rowGet r c0 = rowGet r' c0 := by
        have := hag 0 (by simp) (by simp)
        simpa using this
      have hrec : extractLoop rs (c0 :: cs) t s g = extractLoop rs' (c0 :: cs') t s g := by
        refine ih rs' (by simpa using hlen) ?_
        intro i hi hi'
        have := hag (i + 1) (by simpa using Nat.succ_lt_succ hi)
          (by simpa using Nat.succ_lt_succ hi')
        simpa using this
      unfold extractLoop at hrec ⊢
      rw [List.mapM_cons, List.mapM_cons, extractRow_firstcol c0 cs cs' t s g r r' h0,
        hrec]

/-- Claim C9 witness: two concrete runs differing in the extra selected
column and in every cell outside the first selected column coincide. -/
theorem C9_first_column_only_witness :
    extractLoop [[("Name", "Paris"), ("Note", "x")]] ["Name", "Note"]
        demoTemplate demoSearch demoPost =
      extractLoop [[("Name", "Paris"), ("Note", "y")]] ["Name"]
        demoTemplate demoSearch demoPost :=
  C9_first_column_only [[("Name", "Paris"), ("Note", "x")]]
    [[("Name", "Paris"), ("Note", "y")]] "Name" ["Note"] [] demoTemplate
    demoSearch demoPost rfl
    (by
      intro i hi hi'
      cases i with
      | zero => rfl
      | succ n => exact absurd hi (by simp))

/-- Unfolding equation of `parseUnquoted` on nonempty input. -/
theorem parseUnquoted_cons (c : Char) (r : List Char) :
    parseUnquoted (c :: r) =
      if c = ',' || c = '\n' then ([], c :: r)
      else (c :: (parseUnquoted r).1, (parseUnquoted r).2) := rfl

/-- Unquoted-field parsing stops exactly at the first delimiter or newline
when the field text itself holds neither. -/
theorem parseUnquoted_append (cs : List Char) (d : Char) (r : List Char)
    (h : ∀ c ∈ cs, c ≠ ',' ∧ c ≠ '\n') (hd : d = ',' ∨ d = '\n') :
    parseUnquoted (cs ++ d :: r) = (cs, d :: r) := by
  induction cs with
  | nil =>
    rw [List.nil_append, parseUnquoted_cons,
      if_pos (by rcases hd with hd | hd <;> simp [hd])]
  | cons c cs' ih =>
    have hc := h c (by simp)
    rw [List.cons_append, parseUnquoted_cons, if_neg (by simp [hc.1, hc.2]),
      ih (fun c' hc' => h c' (List.mem_cons_of_mem _ hc'))]

/-- Unfolding equation of `escQuotes` on nonempty input. -/
theorem escQuotes_cons (c : Char) (r : List Char) :
    escQuotes (c :: r) =
      if c = dquote then dquote :: dquote :: escQuotes r else c :: escQuotes r := rfl

/-- Unfolding equation of `parseQuoted` on nonempty input. -/
theorem parseQuoted_cons (c : Char) (r : List Char) :
    parseQuoted (c :: r) =
      if c = dquote then
        match r with
        | c2 :: r2 =>
            if c2 = dquote then (fun p => (dquote :: p.1, p.2)) <$> parseQuoted r2
            else some ([], r)
        | [] => some ([], [])
      else (fun p => (c :: p.1, p.2)) <$> parseQuoted r := by
  cases r <;> rfl

/-- Quoted-field parsing inverts quote escaping: reading the escaped text
followed by the closing quote recovers the original characters, provided the
remainder does not itself begin with a quote. -/
theorem parseQuoted_escQuotes (cs : List Char) (rest : List Char)
    (hrest : rest.head? ≠ some dquote) :
    parseQuoted (escQuotes cs ++ dquote :: rest) = some (cs, rest) := by
  induction cs with
  | nil =>
    rw [show escQuotes [] ++ dquote :: rest = dquote :: rest from rfl,
      parseQuoted_cons, if_pos rfl]
    cases rest with
    | nil => rfl
    | cons c2 r2 =>
      dsimp only
      rw [if_neg (by intro hc2; exact hrest (by simp [hc2]))]
  | cons c cs' ih =>
    by_cases hc : c = dquote
    · subst hc
      rw [escQuotes_cons, if_pos rfl, List.cons_append, List.cons_append,
        parseQuoted_cons, if_pos rfl]
      dsimp only
      rw [if_pos rfl, ih]
      rfl
    · rw [escQuotes_cons, if_neg hc, List.cons_append, parseQuoted_cons,
        if_neg hc, ih]
      rfl

/-- Unfolding equation of `parseField` on nonempty input. -/
theorem parseField_cons (c : Char) (r : List Char) :
    parseField (c :: r) =
      if c = dquote then parseQuoted r else some (parseUnquoted (c :: r)) := rfl

/-- Parsing one serialised field recovers the field text and leaves the
delimiter in place. -/
theorem parseField_fieldChars (s : String) (d : Char) (r : List Char)
    (hd : d = ',' ∨ d = '\n') :
    parseField (fieldChars s ++ d :: r) = some (s.data, d :: r) := by
  have hdq : d ≠ dquote := by
    rcases hd with hd | hd <;> rw [hd] <;> decide
  rw [show fieldChars s =
        if needsQuote s then dquote :: (escQuotes s.data ++ [dquote]) else s.data
      from rfl]
  cases hq : needsQuote s with
  | true =>
    rw [if_pos rfl, List.cons_append, parseField_cons, if_pos rfl,
      List.append_assoc, List.singleton_append]
    exact parseQuoted_escQuotes s.data (d :: r) (by simp [hdq])
  | false =>
    rw [if_neg (by simp)]
    have hall : ∀ c ∈ s.data, c ≠ ',' ∧ c ≠ dquote ∧ c ≠ '\n' ∧ c ≠ '\r' := by
      intro c hcmem
      have hfalse := (List.any_eq_false.mp hq) c hcmem
      simp at hfalse
      obtain ⟨⟨⟨h1, h2⟩, h3⟩, h4⟩ := hfalse
      exact ⟨h1, h2, h3, h4⟩
    cases hsd : s.data with
    | nil =>
      rw [List.nil_append, parseField_cons, if_neg hdq]
      have hu := parseUnquoted_append [] d r (by simp) hd
      rw [List.nil_append] at hu
      rw [hu]
    | cons c cs' =>
      have hc := hall c (by rw [hsd]; simp)
      rw [List.cons_append, parseField_cons, if_neg hc.2.1,
        show c :: (cs' ++ d :: r) = (c :: cs') ++ d :: r from rfl,
        parseUnquoted_append (c :: cs') d r
          (by
            intro c' hc'
            have hcc := hall c' (by rw [hsd]; exact hc')
            exact ⟨hcc.1, hcc.2.2.1⟩) hd]

/-- Parsing one serialised line recovers its two fields and leaves the rest
of the text untouched. -/
theorem parseLine_csvLine (a b : String) (rest : List Char) :
    parseLine (fieldChars a ++ ',' :: (fieldChars b ++ '\n' :: rest)) =
      some ((a, b), rest) := by
  unfold parseLine
  rw [parseField_fieldChars a ',' (fieldChars b ++ '\n' :: rest) (Or.inl rfl)]
  dsimp only
  rw [if_pos rfl, parseField_fieldChars b '\n' rest (Or.inr rfl)]
  dsimp only
  rw [if_pos rfl]

/-- Each serialised record contributes at least one character. -/
theorem length_le_csvBody : ∀ recs : List (String × String),
    recs.length ≤ (csvBody recs).length := by
  intro recs
  induction recs with
  | nil => simp [csvBody]
  | cons p rs ih =>
    simp only [csvBody, List.length_cons, List.length_append]
    omega

/-- Parsing the serialised body with sufficient fuel recovers the records. -/
theorem parseRowsAux_csvBody : ∀ (recs : List (String × String)) (fuel : Nat),
    recs.length ≤ fuel → parseRowsAux fuel (csvBody recs) = some recs := by
  intro recs
  induction recs with
  | nil =>
    intro fuel _
    cases fuel <;> rfl
  | cons p rs ih =>
    intro fuel hf
    cases fuel with
    | zero => simp at hf
    | succ f =>
      have hne : (csvBody (p :: rs)).isEmpty = false := by
        rw [show csvBody (p :: rs) =
              fieldChars p.1 ++ ',' :: (fieldChars p.2 ++ '\n' :: csvBody rs) from rfl]
        cases hfc : fieldChars p.1 with
        | nil => rw [List.nil_append]; rfl
        | cons c cs2 => rw [List.cons_append]; rfl
      simp only [parseRowsAux]
      rw [if_neg (by rw [hne]; intro hcontra; cases hcontra)]
      rw [show csvBody (p :: rs) =
            fieldChars p.1 ++ ',' :: (fieldChars p.2 ++ '\n' :: csvBody rs) from rfl,
        parseLine_csvLine p.1 p.2 (csvBody rs)]
      dsimp only
      rw [ih f (by simpa using hf)]

/-- Claim C8: exporting the output table as delimited text and re-parsing
that text is the identity on the records — the parse yields the header pair
followed by exactly the exported `(Entity, Response)` pairs, in order, for
every record list (hence for every output table the extraction loop
produces, each cell taken in its exported textual form). -/
theorem C8_roundtrip (recs : List (String × String)) :
    read_csv (to_csv recs) = some (("Entity", "Response") :: recs) := by
  unfold read_csv to_csv
  have hdr : "Entity,Response".data ++ '\n' :: csvBody recs =
      csvBody (("Entity", "Response") :: recs) := rfl
  rw [show ((⟨"Entity,Response".data ++ '\n' :: csvBody recs⟩ : String)).data =
        "Entity,Response".data ++ '\n' :: csvBody recs from rfl]
  rw [hdr]
  refine parseRowsAux_csvBody (("Entity", "Response") :: recs) _ ?_
  have h1 := length_le_csvBody (("Entity", "Response") :: recs)
  omega

end Dash
